import Mathlib

/-!
Verification of the request-handling shell in `backend/app.py`: a small HTTP
service that exposes a LoRA fine-tuned causal language model for chat
inference, plus health, model-info and metrics endpoints.  The wrapped ML
runtime (tokenizer, quantized model loading, adapter merge, autoregressive
generation) and the web framework are external collaborators; they are
modelled as structures of abstract functions, while every line of original
logic in `app.py` (configuration resolution, prompt templating, the slice /
decode / strip pipeline, parameter-name classification, conditional file
reads) is embedded directly below.
-/

/-- Python substring containment `pat in s`: the pattern's characters occur
contiguously inside `s`. -/
def containsSub (s pat : String) : Bool := decide (pat.data <:+: s.data)

/-- Python `str.strip()` on a character list: remove whitespace from both
ends (drop the leading run, reverse, drop the leading run of the reversal,
reverse back). -/
def stripChars (l : List Char) : List Char :=
  ((l.dropWhile Char.isWhitespace).reverse.dropWhile Char.isWhitespace).reverse

/-- Python `str.strip()`. -/
def pyStrip (s : String) : String := String.mk (stripChars s.data)

/-- Insert a comma after every third character of a reversed digit list,
mirroring Python's thousands-separated integer format spec. -/
def commaRev : List Char → List Char
  | a :: b :: c :: d :: rest => a :: b :: c :: ',' :: commaRev (d :: rest)
  | l => l

/-- Python thousands-separated formatting of a natural number, as produced
by an f-string with the comma format spec (`total_params`/`trainable_params`
formatting in `model_info`). -/
def formatThousands (n : Nat) : String :=
  String.mk ((commaRev (Nat.repr n).data.reverse).reverse)

/-- A process environment: maps a variable name to its value when set. -/
def Env : Type := String → Option String

/-- Python `os.environ.get(key, default)`. -/
def envGet (env : Env) (key dflt : String) : String := (env key).getD dflt

/-- The module-level configuration constants of `app.py` (lines 30-34). -/
structure Config where
  MODEL_NAME : String
  ADAPTER_PATH : String
  METRICS_PATH : String
  EXPERIMENTS_PATH : String
  PERPLEXITY_PATH : String

/-- Module-level configuration resolution (`app.py` lines 30-34):
`MODEL_NAME` is a hardcoded string literal, while the four file/directory
paths are read with `os.environ.get` and fall back to hardcoded defaults.
Reading is total: an unset variable is never an error. -/
def resolveConfig (env : Env) : Config where
  MODEL_NAME := "TinyLlama/TinyLlama-1.1B-Chat-v1.0"
  ADAPTER_PATH := envGet env "ADAPTER_PATH" "./lora-ml-assistant/run1_baseline/final"
  METRICS_PATH := envGet env "METRICS_PATH" "./logs/metrics.csv"
  EXPERIMENTS_PATH := envGet env "EXPERIMENTS_PATH" "./logs/experiments.csv"
  PERPLEXITY_PATH := envGet env "PERPLEXITY_PATH" "./logs/perplexity.json"

/-- JSON-like values, as produced by `json.load` and by pandas
`to_dict` with records orientation.  Numbers are modelled exactly as a
decimal mantissa together with the count of decimal places, e.g. the literal
12.3 is `jnum 123 1`. -/
inductive JVal where
  | jnull : JVal
  | jbool : Bool → JVal
  | jnum : Int → Nat → JVal
  | jstr : String → JVal
  | jarr : List JVal → JVal
  | jobj : List (String × JVal) → JVal

/-- A CSV table as pandas parses it: a list of rows, each row a record of
column-name/value pairs.  CSV parsing itself is done by the external pandas
library; a file on disk is modelled by its parsed rows. -/
def CsvTable : Type := List (List (String × JVal))

/-- The three metrics source files as found on disk at request time:
`some` content when the file exists, `none` when it is absent. -/
structure MetricsFiles where
  metricsCsv : Option CsvTable
  perplexityJson : Option JVal
  experimentsCsv : Option CsvTable

/-- pandas `read_csv` followed by `to_dict` with records orientation:
the table republished as a JSON list of row objects. -/
def csvRecords (rows : CsvTable) : JVal := JVal.jarr (rows.map JVal.jobj)

/-- The `GET /metrics` handler (`app.py` lines 115-133): start from an empty
result object and, independently for each of the three configured paths,
attach the parsed file content under its fixed key when the file exists.
The JSON object is modelled as its ordered key/value list. -/
def get_metrics (fs : MetricsFiles) : List (String × JVal) :=
  let result : List (String × JVal) := []
  let result := match fs.metricsCsv with
    | some rows => result ++ [("comparison", csvRecords rows)]
    | none => result
  let result := match fs.perplexityJson with
    | some j => result ++ [("perplexity", j)]
    | none => result
  match fs.experimentsCsv with
  | some rows => result ++ [("experiments", csvRecords rows)]
  | none => result

/-- Sampling parameters of a `model.generate` call, exactly the keyword
arguments passed at `app.py` lines 89-97.  Float-valued knobs carry exact
rational values since the handler only passes them through verbatim. -/
structure GenParams where
  max_new_tokens : Int
  temperature : Rat
  top_p : Rat
  do_sample : Bool
  repetition_penalty : Rat
  pad_token_id : Nat

/-- The HuggingFace tokenizer paired with the model: `encode` is calling the
tokenizer on a string (the resulting `input_ids` row), `decode` takes token
ids and the `skip_special_tokens` flag, and the end-of-sequence / padding
token ids are exposed as fields. -/
structure Tokenizer where
  encode : String → List Nat
  decode : List Nat → Bool → String
  eosTokenId : Nat
  padTokenId : Nat

/-- The loaded (base + adapter) model handle.  `device` models both
`model.device` and the device of the model's parameters as reported by
`/health`; `namedParams` is `model.named_parameters()` as name/element-count
pairs; `generate` is the external generation routine, returning the single
output row `outputs[0]` for a single input row. -/
structure ModelHandle where
  device : String
  namedParams : List (String × Nat)
  generate : GenParams → List Nat → List Nat

/-- The two module-level session globals of `app.py` (lines 36-37). -/
structure ServerState where
  model : Option ModelHandle
  tokenizer : Option Tokenizer

/-- The state at process start: `model = None`, `tokenizer = None`. -/
def initialState : ServerState := { model := none, tokenizer := none }

/-- CUDA runtime facts consulted by the handlers: availability, the name of
device 0, and the allocated-memory string the runtime would format (its
floating-point division and 2-decimal rendering are external). -/
structure CudaInfo where
  available : Bool
  deviceName : String
  vramUsedString : String

/-- The `POST /chat` request body with its pydantic defaults. -/
structure ChatRequest where
  message : String
  max_tokens : Int := 512
  temperature : Rat := 7/10

/-- A record of one invocation of `model.generate`: the input ids passed,
the sampling parameters, and whether it ran under `torch.no_grad`. -/
structure GenCall where
  inputIds : List Nat
  params : GenParams
  noGrad : Bool

/-- The hardcoded system instruction of the prompt template. -/
def systemMsg : String :=
  "you are an expert ai/ml assistant specializing in machine learning, deep learning, neural networks, and modern ai architectures. provide clear, accurate, and educational responses."

/-- The prompt template of the chat handler (`app.py` lines 79-86): three
fixed role markers, the hardcoded system instruction, the caller's message
verbatim, and an open assistant continuation point. -/
def buildPrompt (message : String) : String :=
  "<|system|>\n" ++ systemMsg ++ "</s>\n" ++ "<|user|>\n" ++ message ++ "</s>\n" ++ "<|assistant|>\n"

/-- The literal role-marker substrings used in the prompt template. -/
def roleMarkers : List String := ["<|system|>", "<|user|>", "<|assistant|>"]

/-- The sampling parameters the chat handler passes to `model.generate`
(`app.py` lines 91-96), built from the request and the tokenizer. -/
def chatParams (tok : Tokenizer) (req : ChatRequest) : GenParams where
  max_new_tokens := req.max_tokens
  temperature := req.temperature
  top_p := 9/10
  do_sample := true
  repetition_penalty := 6/5
  pad_token_id := tok.eosTokenId

/-- Body of the chat handler for a populated session (`app.py` lines
79-102): format the prompt, tokenize it, run one generation call under
`torch.no_grad`, slice off the first `input_ids`-length output tokens,
decode the remainder with special tokens skipped, and strip surrounding
whitespace.  Returns the response text together with the list of generation
calls issued (one record per `model.generate` invocation in the body). -/
def chatCore (tok : Tokenizer) (m : ModelHandle) (req : ChatRequest) : String × List GenCall :=
  let prompt := buildPrompt req.message
  let input_ids := tok.encode prompt
  let params := chatParams tok req
  let outputs := m.generate params input_ids
  let response := pyStrip (tok.decode (outputs.drop input_ids.length) true)
  (response, [{ inputIds := input_ids, params := params, noGrad := true }])

/-- A Python exception surfaced to the web layer as a server error. -/
def PyErr : Type := String

/-- The `POST /chat` handler (`app.py` lines 77-102).  It performs no
None-guard: `tokenizer(prompt)` is called unconditionally, so before startup
has populated the globals it raises (calling `None`); with a tokenizer but
no model, `model.device` raises.  The handler assigns no global, so it
returns the session state unchanged. -/
def chat (s : ServerState) (req : ChatRequest) :
    Except PyErr (String × List GenCall) × ServerState :=
  match s.tokenizer with
  | none => (Except.error "TypeError: NoneType object is not callable", s)
  | some tok =>
    match s.model with
    | none => (Except.error "AttributeError: NoneType object has no attribute device", s)
    | some m => (Except.ok (chatCore tok m req), s)

/-- The `GET /health` response shape. -/
structure HealthResponse where
  status : String
  model_loaded : Bool
  device : String
  gpu : String

/-- The `GET /health` handler (`app.py` lines 105-112): always status "ok",
`model_loaded` from the session, the model's device or the sentinel "n/a"
when unpopulated, and the CUDA device name or the sentinel "cpu" when no
accelerator is available.  Total: it never raises.  No global is assigned,
so the state is returned unchanged. -/
def health (s : ServerState) (cuda : CudaInfo) : HealthResponse × ServerState :=
  ({ status := "ok"
     model_loaded := s.model.isSome
     device := match s.model with
       | some m => m.device
       | none => "n/a"
     gpu := if cuda.available then cuda.deviceName else "cpu" }, s)

/-- Whether a parameter name is counted in the trainable/adapter bucket
(`app.py` line 142): the name contains the substring "lora_" or the
substring "modules_to_save". -/
def isAdapterParam (name : String) : Bool :=
  containsSub name "lora_" || containsSub name "modules_to_save"

/-- The accumulation loop of the model-info handler (`app.py` lines
138-143): starting from totals (0, 0), add every parameter's element count
to the first component and, when the name matches, also to the second. -/
def paramCounts (ps : List (String × Nat)) : Nat × Nat :=
  ps.foldl (fun acc p => (acc.1 + p.2, if isAdapterParam p.1 then acc.2 + p.2 else acc.2)) (0, 0)

/-- The `GET /model-info` response shape. -/
structure ModelInfoResponse where
  base_model : String
  adapter_path : String
  quantization : String
  total_params : String
  trainable_params : String
  vram_used : String

/-- The `GET /model-info` handler (`app.py` lines 136-152): counts stay
(0, 0) when the session is unpopulated, otherwise the loop runs over every
named parameter; both counts are rendered with thousands separators.  No
global is assigned, so the state is returned unchanged. -/
def model_info (s : ServerState) (cfg : Config) (cuda : CudaInfo) :
    ModelInfoResponse × ServerState :=
  let counts := match s.model with
    | some m => paramCounts m.namedParams
    | none => ((0 : Nat), (0 : Nat))
  ({ base_model := cfg.MODEL_NAME
     adapter_path := cfg.ADAPTER_PATH
     quantization := "4-bit nf4 (qlora)"
     total_params := formatThousands counts.1
     trainable_params := formatThousands counts.2
     vram_used := if cuda.available then cuda.vramUsedString else "n/a" }, s)

/-- The fixed quantization policy passed to the base-model loader
(`app.py` lines 55-60). -/
structure BnbConfig where
  load_in_4bit : Bool
  quant_type : String
  compute_dtype : String
  use_double_quant : Bool

/-- The `BitsAndBytesConfig` constructed at startup: 4-bit, nf4 scheme,
float16 compute, double quantization enabled. -/
def bnb_config : BnbConfig where
  load_in_4bit := true
  quant_type := "nf4"
  compute_dtype := "float16"
  use_double_quant := true

/-- The external transformers/peft loading entry points used at startup. -/
structure Externals where
  autoTokenizerFromPretrained : String → Tokenizer
  autoModelFromPretrained : String → BnbConfig → ModelHandle
  peftModelFromPretrained : ModelHandle → String → ModelHandle

/-- The startup hook `load_model` (`app.py` lines 50-74): load the
tokenizer, set its padding token to its end-of-sequence token, load the
quantized base model, merge the adapter from the configured path, and write
the two session globals — the only writes to them in the program. -/
def load_model (ext : Externals) (cfg : Config) (_s : ServerState) : ServerState :=
  let tok0 := ext.autoTokenizerFromPretrained cfg.MODEL_NAME
  let tok := { tok0 with padTokenId := tok0.eosTokenId }
  let base := ext.autoModelFromPretrained cfg.MODEL_NAME bnb_config
  let m := ext.peftModelFromPretrained base cfg.ADAPTER_PATH
  { model := some m, tokenizer := some tok }

/-- Ambient external facts a request observes: resolved configuration,
CUDA runtime state, and the metrics files currently on disk. -/
structure World where
  cfg : Config
  cuda : CudaInfo
  files : MetricsFiles

/-- One incoming HTTP request, by endpoint. -/
inductive Request where
  | chatReq : ChatRequest → Request
  | healthReq : Request
  | metricsReq : Request
  | modelInfoReq : Request

/-- A response from any of the four handlers. -/
inductive HResponse where
  | chatRes : Except PyErr (String × List GenCall) → HResponse
  | healthRes : HealthResponse → HResponse
  | metricsRes : List (String × JVal) → HResponse
  | infoRes : ModelInfoResponse → HResponse

/-- Dispatch of one request to its handler, threading the session state. -/
def handle (w : World) (s : ServerState) : Request → HResponse × ServerState
  | Request.chatReq r =>
    let p := chat s r
    (HResponse.chatRes p.1, p.2)
  | Request.healthReq =>
    let p := health s w.cuda
    (HResponse.healthRes p.1, p.2)
  | Request.metricsReq => (HResponse.metricsRes (get_metrics w.files), s)
  | Request.modelInfoReq =>
    let p := model_info s w.cfg w.cuda
    (HResponse.infoRes p.1, p.2)

/-- A concrete everything-unset environment, for instantiating theorems. -/
def env0 : Env := fun _ => none

/-- The configuration resolved with no environment variables set. -/
def cfg0 : Config := resolveConfig env0

/-- A concrete CUDA-less runtime, for instantiating theorems. -/
def cuda0 : CudaInfo where
  available := false
  deviceName := ""
  vramUsedString := ""

/-- A concrete parameter list with one base and two adapter parameters,
for instantiating theorems. -/
def wParams : List (String × Nat) :=
  [("base_model.model.embed_tokens.weight", 1000),
   ("base_model.model.layers.0.self_attn.q_proj.lora_A.weight", 16),
   ("base_model.model.layers.0.self_attn.q_proj.lora_B.weight", 16)]

/-- A concrete model handle over `wParams`, for instantiating theorems. -/
def wModel : ModelHandle where
  device := "cuda:0"
  namedParams := wParams
  generate := fun _ ids => ids

/-- A session populated with `wModel` only, for instantiating theorems. -/
def wState : ServerState where
  model := some wModel
  tokenizer := none

/-- A concrete tokenizer whose decoding always yields a fixed clean text,
for instantiating theorems. -/
def wTok : Tokenizer where
  encode := fun s => List.replicate s.length 7
  decode := fun _ _ => " hello "
  eosTokenId := 2
  padTokenId := 2

/-- A concrete model handle that echoes its input ids and appends two fresh
tokens, for instantiating theorems. -/
def wGenModel : ModelHandle where
  device := "cpu"
  namedParams := []
  generate := fun _ ids => ids ++ [3, 4]

/-- A list whose `dropWhile` result starts with an element at all starts
with one falsifying the predicate. -/
theorem head?_dropWhile_false (p : Char → Bool) :
    ∀ (l : List Char) (c : Char), (l.dropWhile p).head? = some c → p c = false := by
  intro l
  induction l with
  | nil =>
    intro c h
    simp at h
  | cons a t ih =>
    intro c h
    rw [List.dropWhile_cons] at h
    by_cases hpa : p a = true
    · rw [if_pos hpa] at h
      exact ih c h
    · rw [if_neg hpa] at h
      simp only [List.head?_cons, Option.some.injEq] at h
      subst h
      simpa using hpa

/-- The last character of a stripped character list is never whitespace. -/
theorem stripChars_getLast?_false (l : List Char) (c : Char)
    (h : (stripChars l).getLast? = some c) : c.isWhitespace = false := by
  unfold stripChars at h
  rw [List.getLast?_reverse] at h
  exact head?_dropWhile_false _ _ _ h

/-- The first character of a stripped character list is never whitespace. -/
theorem stripChars_head?_false (l : List Char) (c : Char)
    (h : (stripChars l).head? = some c) : c.isWhitespace = false := by
  unfold stripChars at h
  rw [List.head?_reverse] at h
  obtain ⟨t, ht⟩ :=
    List.dropWhile_suffix (l := (l.dropWhile Char.isWhitespace).reverse) Char.isWhitespace
  have h2 : (l.dropWhile Char.isWhitespace).reverse.getLast? = some c := by
    rw [← ht, List.getLast?_append, h]
    rfl
  rw [List.getLast?_reverse] at h2
  exact head?_dropWhile_false _ _ _ h2

/-- Stripping yields a contiguous fragment of the original list. -/
theorem stripChars_within (l : List Char) : stripChars l <:+: l := by
  obtain ⟨t1, ht1⟩ := List.dropWhile_suffix (l := l) Char.isWhitespace
  obtain ⟨t2, ht2⟩ :=
    List.dropWhile_suffix (l := (l.dropWhile Char.isWhitespace).reverse) Char.isWhitespace
  refine ⟨t1, t2.reverse, ?_⟩
  have h3 : l.dropWhile Char.isWhitespace = stripChars l ++ t2.reverse := by
    have h4 := congrArg List.reverse ht2
    simpa [stripChars, List.reverse_append] using h4.symm
  calc t1 ++ stripChars l ++ t2.reverse
      = t1 ++ (stripChars l ++ t2.reverse) := by rw [List.append_assoc]
    _ = t1 ++ l.dropWhile Char.isWhitespace := by rw [← h3]
    _ = l := ht1

/-- A pattern absent from a string is absent from its stripped form. -/
theorem containsSub_pyStrip_false (s pat : String) (h : containsSub s pat = false) :
    containsSub (pyStrip s) pat = false := by
  simp only [containsSub, pyStrip, decide_eq_false_iff_not] at h ⊢
  intro hin
  exact h (hin.trans (stripChars_within s.data))

/-- The model-info accumulation loop, from any starting totals, adds the
full element-count sum and the name-filtered element-count sum. -/
theorem paramCounts_foldl (ps : List (String × Nat)) :
    ∀ a b : Nat,
      ps.foldl
        (fun acc p => (acc.1 + p.2, if isAdapterParam p.1 then acc.2 + p.2 else acc.2)) (a, b) =
      (a + (ps.map Prod.snd).sum,
       b + ((ps.filter fun p => isAdapterParam p.1).map Prod.snd).sum) := by
  induction ps with
  | nil =>
    intro a b
    simp
  | cons p t ih =>
    intro a b
    rw [List.foldl_cons, ih]
    by_cases hp : isAdapterParam p.1 = true
    · simp [hp, List.filter_cons, Nat.add_assoc]
    · simp [hp, List.filter_cons, Nat.add_assoc]

/-- `paramCounts` computes the total element-count sum and the sum over the
parameters whose name matches the adapter substrings. -/
theorem paramCounts_eq (ps : List (String × Nat)) :
    paramCounts ps =
      ((ps.map Prod.snd).sum,
       ((ps.filter fun p => isAdapterParam p.1).map Prod.snd).sum) := by
  have h := paramCounts_foldl ps 0 0
  simpa [paramCounts] using h

/-- The adapter bucket never exceeds the total bucket. -/
theorem adapterSum_le_totalSum (ps : List (String × Nat)) :
    ((ps.filter fun p => isAdapterParam p.1).map Prod.snd).sum ≤ (ps.map Prod.snd).sum := by
  have hsub : List.Sublist ((ps.filter fun p => isAdapterParam p.1).map Prod.snd)
      (ps.map Prod.snd) :=
    List.Sublist.map Prod.snd (List.filter_sublist ps)
  exact hsub.sum_le_sum (fun x _ => Nat.zero_le x)

/-- Folding a step function that fixes every state leaves the state fixed. -/
theorem foldl_step_id {α β : Type _} (f : α → β → α) (h : ∀ a b, f a b = a) :
    ∀ (l : List β) (a : α), l.foldl f a = a := by
  intro l
  induction l with
  | nil =>
    intro a
    rfl
  | cons x t ih =>
    intro a
    rw [List.foldl_cons, h]
    exact ih a

/-- No request handler changes the session state. -/
theorem handle_preserves_state (w : World) (s : ServerState) (r : Request) :
    (handle w s r).2 = s := by
  cases r with
  | chatReq req =>
    obtain ⟨mo, tk⟩ := s
    cases tk <;> cases mo <;> rfl
  | healthReq => rfl
  | metricsReq => rfl
  | modelInfoReq => rfl

/-- Claim C1: the chat response is the decoding, with special tokens
skipped, of only the output tokens after the first `input_ids`-length ones
(the echoed prompt), stripped of surrounding whitespace; hence, whenever
generation echoes the prompt ids and skip-special decoding of the
continuation contains no role marker, the response carries no prompt echo,
no role-marker substring, and no leading or trailing whitespace. -/
theorem chat_response_clean (tok : Tokenizer) (m : ModelHandle) (req : ChatRequest)
    (gen : List Nat)
    (hecho : m.generate (chatParams tok req) (tok.encode (buildPrompt req.message)) =
      tok.encode (buildPrompt req.message) ++ gen)
    (hclean : ∀ mrk ∈ roleMarkers, containsSub (tok.decode gen true) mrk = false) :
    (chatCore tok m req).1 = pyStrip (tok.decode gen true) ∧
    (∀ mrk ∈ roleMarkers, containsSub (chatCore tok m req).1 mrk = false) ∧
    (∀ c : Char, ((chatCore tok m req).1.data.head? = some c → c.isWhitespace = false) ∧
      ((chatCore tok m req).1.data.getLast? = some c → c.isWhitespace = false)) := by
  have hmain : (chatCore tok m req).1 = pyStrip (tok.decode gen true) := by
    simp only [chatCore]
    rw [hecho, List.drop_left]
  refine ⟨hmain, ?_, ?_⟩
  · intro mrk hmrk
    rw [hmain]
    exact containsSub_pyStrip_false _ _ (hclean mrk hmrk)
  · intro c
    rw [hmain]
    exact ⟨stripChars_head?_false _ c, stripChars_getLast?_false _ c⟩

/-- Witness for C1 at a concrete tokenizer, model and request: the decoded
continuation " hello " is returned as "hello". -/
theorem chat_response_clean_witness :
    (chatCore wTok wGenModel { message := "hi" }).1 = "hello" := by
  have h := chat_response_clean wTok wGenModel { message := "hi" } [3, 4] rfl (by decide)
  rw [h.1]
  decide

/-- Claim C2: the chat handler issues exactly one generation call, under a
no-gradient scope, whose sampling parameters come verbatim from the
request and tokenizer: requested max tokens, requested temperature (any
value, including 0, unmodified), nucleus mass 9/10, sampling enabled,
repetition penalty 6/5, and the tokenizer's end-of-sequence id as pad id. -/
theorem chat_single_generation (tok : Tokenizer) (m : ModelHandle) (req : ChatRequest) :
    (chatCore tok m req).2 =
      [{ inputIds := tok.encode (buildPrompt req.message),
         params := chatParams tok req, noGrad := true }] ∧
    (chatParams tok req).max_new_tokens = req.max_tokens ∧
    (chatParams tok req).temperature = req.temperature ∧
    (chatParams tok req).top_p = 9/10 ∧
    (chatParams tok req).do_sample = true ∧
    (chatParams tok req).repetition_penalty = 6/5 ∧
    (chatParams tok req).pad_token_id = tok.eosTokenId :=
  ⟨rfl, rfl, rfl, rfl, rfl, rfl, rfl⟩

/-- Claim C3 (amended): the four path settings are each read from their
environment variable, falling back to a hardcoded default when unset, and
absence is never an error; the base model identifier, however, is a
hardcoded constant that no environment variable affects. -/
theorem config_env_fallbacks (env : Env) :
    (resolveConfig env).MODEL_NAME = "TinyLlama/TinyLlama-1.1B-Chat-v1.0" ∧
    (∀ v, env "ADAPTER_PATH" = some v → (resolveConfig env).ADAPTER_PATH = v) ∧
    (env "ADAPTER_PATH" = none →
      (resolveConfig env).ADAPTER_PATH = "./lora-ml-assistant/run1_baseline/final") ∧
    (∀ v, env "METRICS_PATH" = some v → (resolveConfig env).METRICS_PATH = v) ∧
    (env "METRICS_PATH" = none → (resolveConfig env).METRICS_PATH = "./logs/metrics.csv") ∧
    (∀ v, env "EXPERIMENTS_PATH" = some v → (resolveConfig env).EXPERIMENTS_PATH = v) ∧
    (env "EXPERIMENTS_PATH" = none →
      (resolveConfig env).EXPERIMENTS_PATH = "./logs/experiments.csv") ∧
    (∀ v, env "PERPLEXITY_PATH" = some v → (resolveConfig env).PERPLEXITY_PATH = v) ∧
    (env "PERPLEXITY_PATH" = none →
      (resolveConfig env).PERPLEXITY_PATH = "./logs/perplexity.json") := by
  refine ⟨rfl, ?_, ?_, ?_, ?_, ?_, ?_, ?_, ?_⟩ <;>
    first
      | (intro v h; simp [resolveConfig, envGet, h])
      | (intro h; simp [resolveConfig, envGet, h])

/-- Witness for C3 at the empty environment: every path takes its default
and the base model identifier is the hardcoded constant. -/
theorem config_env_fallbacks_witness :
    (resolveConfig env0).MODEL_NAME = "TinyLlama/TinyLlama-1.1B-Chat-v1.0" ∧
    (resolveConfig env0).ADAPTER_PATH = "./lora-ml-assistant/run1_baseline/final" ∧
    (resolveConfig env0).METRICS_PATH = "./logs/metrics.csv" ∧
    (resolveConfig env0).EXPERIMENTS_PATH = "./logs/experiments.csv" ∧
    (resolveConfig env0).PERPLEXITY_PATH = "./logs/perplexity.json" := by
  have h := config_env_fallbacks env0
  exact ⟨h.1, h.2.2.1 rfl, h.2.2.2.2.1 rfl, h.2.2.2.2.2.2.1 rfl, h.2.2.2.2.2.2.2.2 rfl⟩

/-- Counterexample to C3 as stated: with every environment variable set to
"OVERRIDE", the resolved base model identifier is still the hardcoded
constant — it is not read from any environment variable — while a path
setting such as the adapter path does take the environment value. -/
theorem config_model_name_not_from_env :
    (resolveConfig (fun _ => some "OVERRIDE")).MODEL_NAME =
      "TinyLlama/TinyLlama-1.1B-Chat-v1.0" ∧
    (resolveConfig (fun _ => some "OVERRIDE")).ADAPTER_PATH = "OVERRIDE" ∧
    (resolveConfig (fun _ => some "OVERRIDE")).MODEL_NAME ≠ "OVERRIDE" := by
  refine ⟨rfl, rfl, ?_⟩
  decide

/-- Claim C4: each of the three keys appears in the metrics response
exactly when its backing file exists, and with no file present the
response is the empty object. -/
theorem metrics_keys_iff_files (fs : MetricsFiles) :
    (("comparison" ∈ (get_metrics fs).map Prod.fst) ↔ fs.metricsCsv.isSome = true) ∧
    (("perplexity" ∈ (get_metrics fs).map Prod.fst) ↔ fs.perplexityJson.isSome = true) ∧
    (("experiments" ∈ (get_metrics fs).map Prod.fst) ↔ fs.experimentsCsv.isSome = true) ∧
    (fs.metricsCsv = none → fs.perplexityJson = none → fs.experimentsCsv = none →
      get_metrics fs = []) := by
  obtain ⟨mc, pj, ec⟩ := fs
  cases mc <;> cases pj <;> cases ec <;> simp [get_metrics]

/-- Witness for C4 with none of the three files present: the response is
the empty object. -/
theorem metrics_keys_iff_files_witness :
    get_metrics ⟨none, none, none⟩ = [] :=
  (metrics_keys_iff_files ⟨none, none, none⟩).2.2.2 rfl rfl rfl

/-- Claim C5: when only the perplexity JSON file exists, the response is
exactly the object with the single key "perplexity" bound to the file's
parsed content, verbatim. -/
theorem metrics_only_perplexity (fs : MetricsFiles) (v : JVal)
    (h1 : fs.metricsCsv = none) (h2 : fs.experimentsCsv = none)
    (h3 : fs.perplexityJson = some v) :
    get_metrics fs = [("perplexity", v)] := by
  obtain ⟨mc, pj, ec⟩ := fs
  have h1' : mc = none := h1
  have h2' : ec = none := h2
  have h3' : pj = some v := h3
  subst h1'
  subst h2'
  subst h3'
  rfl

/-- Witness for C5 at the spec's example file content: a perplexity file
parsing to an object binding "ppl" to 12.3. -/
theorem metrics_only_perplexity_witness :
    get_metrics ⟨none, some (JVal.jobj [("ppl", JVal.jnum 123 1)]), none⟩ =
      [("perplexity", JVal.jobj [("ppl", JVal.jnum 123 1)])] :=
  metrics_only_perplexity ⟨none, some (JVal.jobj [("ppl", JVal.jnum 123 1)]), none⟩
    (JVal.jobj [("ppl", JVal.jnum 123 1)]) rfl rfl rfl

/-- Claim C6: the health handler is total — for every session state it
answers status "ok" and whether the session is populated; before
initialization it reports the model unloaded with sentinel device "n/a",
and without an accelerator it reports the sentinel gpu "cpu". -/
theorem health_reports_session (s : ServerState) (cuda : CudaInfo) :
    (health s cuda).1.status = "ok" ∧
    (health s cuda).1.model_loaded = s.model.isSome ∧
    (s.model = none →
      (health s cuda).1.model_loaded = false ∧ (health s cuda).1.device = "n/a") ∧
    (cuda.available = false → (health s cuda).1.gpu = "cpu") := by
  refine ⟨rfl, rfl, ?_, ?_⟩
  · intro h
    constructor <;> simp [health, h]
  · intro h
    simp [health, h]

/-- Witness for C6 at the pre-initialization state with no accelerator. -/
theorem health_reports_session_witness :
    (health initialState cuda0).1.model_loaded = false ∧
    (health initialState cuda0).1.device = "n/a" ∧
    (health initialState cuda0).1.gpu = "cpu" := by
  have h := health_reports_session initialState cuda0
  exact ⟨(h.2.2.1 rfl).1, (h.2.2.1 rfl).2, h.2.2.2 rfl⟩

/-- Claim C7: before session initialization the model-info handler reports
both parameter counts as the string "0". -/
theorem model_info_zero_before_init (s : ServerState) (cfg : Config) (cuda : CudaInfo)
    (h : s.model = none) :
    (model_info s cfg cuda).1.total_params = "0" ∧
    (model_info s cfg cuda).1.trainable_params = "0" := by
  have h0 : formatThousands 0 = "0" := rfl
  constructor <;> simp [model_info, h, h0]

/-- Witness for C7 at the pre-initialization state. -/
theorem model_info_zero_before_init_witness :
    (model_info initialState cfg0 cuda0).1.total_params = "0" ∧
    (model_info initialState cfg0 cuda0).1.trainable_params = "0" :=
  model_info_zero_before_init initialState cfg0 cuda0 rfl

/-- Claim C8: with a populated session, the reported total is the sum of
every named parameter's element count, the trainable count is the sum over
exactly the parameters whose name contains "lora_" or "modules_to_save",
and the trainable count never exceeds the total. -/
theorem model_info_counts_by_name (s : ServerState) (cfg : Config) (cuda : CudaInfo)
    (m : ModelHandle) (h : s.model = some m) :
    (model_info s cfg cuda).1.total_params =
      formatThousands ((m.namedParams.map Prod.snd).sum) ∧
    (model_info s cfg cuda).1.trainable_params =
      formatThousands (((m.namedParams.filter fun p => isAdapterParam p.1).map Prod.snd).sum) ∧
    ((m.namedParams.filter fun p => isAdapterParam p.1).map Prod.snd).sum ≤
      (m.namedParams.map Prod.snd).sum := by
  refine ⟨?_, ?_, adapterSum_le_totalSum m.namedParams⟩ <;>
    simp [model_info, h, paramCounts_eq]

/-- Witness for C8 at a concrete session: one 1000-element base parameter
and two 16-element lora parameters give totals "1,032" and "32". -/
theorem model_info_counts_by_name_witness :
    (model_info wState cfg0 cuda0).1.total_params = "1,032" ∧
    (model_info wState cfg0 cuda0).1.trainable_params = "32" := by
  have h := model_info_counts_by_name wState cfg0 cuda0 wModel rfl
  refine ⟨?_, ?_⟩
  · rw [h.1]
    decide
  · rw [h.2.1]
    decide

/-- Claim C9: the startup sequence populates both session globals, and no
request handler changes the session state — after any sequence of requests
the post-startup state is unchanged. -/
theorem session_written_once (ext : Externals) (cfg : Config) (l : List (World × Request)) :
    (load_model ext cfg initialState).model.isSome = true ∧
    (load_model ext cfg initialState).tokenizer.isSome = true ∧
    (∀ (w : World) (s : ServerState) (r : Request), (handle w s r).2 = s) ∧
    l.foldl (fun s wr => (handle wr.1 s wr.2).2) (load_model ext cfg initialState) =
      load_model ext cfg initialState := by
  refine ⟨rfl, rfl, handle_preserves_state, ?_⟩
  exact foldl_step_id _ (fun s wr => handle_preserves_state wr.1 s wr.2) l _

/-- Claim C10: a chat request arriving while both session globals are still
unpopulated makes the handler raise (the None tokenizer is called with no
guard), surfacing a server error instead of a response. -/
theorem chat_raises_before_init (s : ServerState) (req : ChatRequest)
    (hm : s.model = none) (ht : s.tokenizer = none) :
    (chat s req).1 = Except.error "TypeError: NoneType object is not callable" ∧
    (chat s req).2 = s := by
  obtain ⟨mo, tk⟩ := s
  have hm' : mo = none := hm
  have ht' : tk = none := ht
  subst hm'
  subst ht'
  exact ⟨rfl, rfl⟩

/-- Witness for C10 at the process-start state and a concrete request. -/
theorem chat_raises_before_init_witness :
    (chat initialState { message := "hi" }).1 =
      Except.error "TypeError: NoneType object is not callable" :=
  (chat_raises_before_init initialState { message := "hi" } rfl rfl).1
